import Mathlib

/-!
Verification of the Genymotion SaaS MCP adapter (src/server.py).

The development shallowly embeds the Python source.  Parsed JSON documents
become the inductive type `Json`; Python-level behaviour that the source
relies on (truthiness, `dict.get` with a default, the `in` operator,
subscripting, `str()` interpolation into f-strings, `str.lower`) is embedded
by small total functions, with Python exceptions represented as the `error`
branch of `Except String`.  The subprocess is an oracle
`List String → ProcResult`; the external `json` module is an oracle pair
`JsonLib` (`loads` and `dumps`).  Each MCP operation of the source becomes a
Lean function from those oracles and its typed arguments to the single text
result the operation returns; the `try/except` wrapper of every operation
becomes an explicit match on the operation body's `Except` value.

`connect_adb` additionally returns the ordered trace of its externally
visible effects (subprocess invocations and the fixed 0.5 s settle delay of
`time.sleep(0.5)`), because the specification speaks about their order.
The environment tag `GMSAAS_USER_AGENT_EXTRA_DATA = "mcp"` that the source
sets on every invocation is pure telemetry with no influence on any result
and is not modelled.
-/

/-- A parsed JSON document, as produced by `json.loads` in the source.
Numbers are modelled as integers; no claim involves non-integer numbers. -/
inductive Json where
  | null : Json
  | bool (b : Bool) : Json
  | num (n : Int) : Json
  | str (s : String) : Json
  | arr (elems : List Json) : Json
  | obj (fields : List (String × Json)) : Json

/-- Key lookup in a JSON object, first match wins (Python dict keys are
unique, so this is exact). -/
def jsonLookup (fields : List (String × Json)) (key : String) : Option Json :=
  match fields with
  | [] => none
  | (k, v) :: rest => if k == key then some v else jsonLookup rest key

/-- Python truthiness of a parsed JSON value (`if not result:` in the
source): `None`, `False`, `0`, the empty string, the empty list and the
empty dict are falsy, everything else is truthy. -/
def Json.truthy : Json → Bool
  | Json.null => false
  | Json.bool b => b
  | Json.num n => n != 0
  | Json.str s => s != ""
  | Json.arr xs => !xs.isEmpty
  | Json.obj fs => !fs.isEmpty

/-- Whether the value is a JSON array (Python `isinstance(result, list)`). -/
def Json.isArr : Json → Bool
  | Json.arr _ => true
  | _ => false

/-- The Python type name of the value, used in embedded exception texts. -/
def Json.pyTypeName : Json → String
  | Json.null => "NoneType"
  | Json.bool _ => "bool"
  | Json.num _ => "int"
  | Json.str _ => "str"
  | Json.arr _ => "list"
  | Json.obj _ => "dict"

mutual
/-- Python `repr` of a parsed JSON value. -/
def pyRepr : Json → String
  | Json.null => "None"
  | Json.bool b => if b then "True" else "False"
  | Json.num n => toString n
  | Json.str s => "\x27" ++ s ++ "\x27"
  | Json.arr xs => "[" ++ pyReprList xs ++ "]"
  | Json.obj fs => "\x7b" ++ pyReprFields fs ++ "\x7d"

/-- `repr` of list elements, comma separated. -/
def pyReprList : List Json → String
  | [] => ""
  | [x] => pyRepr x
  | x :: y :: rest => pyRepr x ++ ", " ++ pyReprList (y :: rest)

/-- `repr` of dict entries, comma separated. -/
def pyReprFields : List (String × Json) → String
  | [] => ""
  | [(k, v)] => "\x27" ++ k ++ "\x27: " ++ pyRepr v
  | (k, v) :: p :: rest =>
      "\x27" ++ k ++ "\x27: " ++ pyRepr v ++ ", " ++ pyReprFields (p :: rest)
end

/-- Python `str` of a parsed JSON value — what an f-string interpolation
such as `f"Recipes information: {result}"` produces. -/
def pyStr : Json → String
  | Json.str s => s
  | v => pyRepr v

/-- The text of the `AttributeError` raised when `value.attr` does not
exist (e.g. `.get` on a list). -/
def attrError (v : Json) (attr : String) : String :=
  "\x27" ++ v.pyTypeName ++ "\x27 object has no attribute \x27" ++ attr ++ "\x27"

/-- `value.get(key, default)` — succeeds only on dicts, raising
`AttributeError` otherwise, exactly as in Python. -/
def pyGet (v : Json) (key : String) (default : Json) : Except String Json :=
  match v with
  | Json.obj fs => Except.ok ((jsonLookup fs key).getD default)
  | _ => Except.error (attrError v "get")

/-- ASCII lowercase of a string, embedding `str.lower` as the source uses
it (all compared fields are ASCII). -/
def strLower (s : String) : String := ⟨s.data.map Char.toLower⟩

/-- `value.lower()` — succeeds only on strings. -/
def pyLower (v : Json) : Except String String :=
  match v with
  | Json.str s => Except.ok (strLower s)
  | _ => Except.error (attrError v "lower")

/-- Whether `needle` is a prefix of `hay` (character lists). -/
def charsPrefixOf : List Char → List Char → Bool
  | [], _ => true
  | _ :: _, [] => false
  | a :: as, b :: bs => a == b && charsPrefixOf as bs

/-- Whether `needle` occurs as a contiguous run inside `hay`. -/
def charsContains : List Char → List Char → Bool
  | needle, [] => needle.isEmpty
  | needle, c :: cs => charsPrefixOf needle (c :: cs) || charsContains needle cs

/-- Python `needle in hay` on strings (substring containment). -/
def strIn (needle hay : String) : Bool := charsContains needle.data hay.data

/-- Python `key in value` for a string key: key membership for dicts,
element equality for lists, substring test for strings, `TypeError` for the
other types. -/
def pyContains (v : Json) (key : String) : Except String Bool :=
  match v with
  | Json.obj fs => Except.ok (jsonLookup fs key).isSome
  | Json.arr xs =>
      Except.ok (xs.any fun e =>
        match e with
        | Json.str s => s == key
        | _ => false)
  | Json.str s => Except.ok (strIn key s)
  | _ => Except.error ("argument of type \x27" ++ v.pyTypeName ++ "\x27 is not iterable")

/-- Python `value[key]` for a string key: dict lookup (raising `KeyError`
when absent), `TypeError` on everything else. -/
def pySubscript (v : Json) (key : String) : Except String Json :=
  match v with
  | Json.obj fs =>
      match jsonLookup fs key with
      | some x => Except.ok x
      | none => Except.error ("\x27" ++ key ++ "\x27")
  | Json.arr _ => Except.error "list indices must be integers or slices, not str"
  | Json.str _ => Except.error "string indices must be integers"
  | _ => Except.error ("\x27" ++ v.pyTypeName ++ "\x27 object is not subscriptable")

/-- Python iteration (`for x in value`): lists yield their elements, dicts
their keys, strings their one-character substrings; other types raise
`TypeError`. -/
def pyIter (v : Json) : Except String (List Json) :=
  match v with
  | Json.arr xs => Except.ok xs
  | Json.obj fs => Except.ok (fs.map fun p => Json.str p.1)
  | Json.str s => Except.ok (s.data.map fun c => Json.str (String.singleton c))
  | _ => Except.error ("\x27" ++ v.pyTypeName ++ "\x27 object is not iterable")

/-- Python `value == 'Unknown'`: true exactly when the value is the string
`"Unknown"` (equality between a string and a non-string is `False`). -/
def isUnknownStr : Json → Bool
  | Json.str s => s == "Unknown"
  | _ => false

/-- The captured outcome of one subprocess invocation: exit status and the
two captured text streams. -/
structure ProcResult where
  returncode : Int
  stdout : String
  stderr : String

/-- The external `json` module: `loads` (returning `none` on a
`JSONDecodeError`) and `dumps` with the source's `indent=2`. -/
structure JsonLib where
  loads : String → Option Json
  dumps : Json → String

/-- The full argument vector passed to the subprocess:
`["gmsaas", "--format", "json"] + command`. -/
def gmsaasFull (command : List String) : List String :=
  ["gmsaas", "--format", "json"] ++ command

/-- Embedding of `run_gmsaas_command`: run the subprocess; on non-zero exit
raise `Error executing gmsaas command: ` followed by stderr, falling back to
stdout when stderr is empty (`e.stderr if e.stderr else e.stdout`); on zero
exit parse stdout with `json.loads`, raising
`Error parsing command output as JSON` when parsing fails. -/
def run_gmsaas_command (lib : JsonLib) (ex : List String → ProcResult)
    (command : List String) : Except String Json :=
  let result := ex (gmsaasFull command)
  if result.returncode != 0 then
    let error_message := if result.stderr != "" then result.stderr else result.stdout
    Except.error ("Error executing gmsaas command: " ++ error_message)
  else
    match lib.loads result.stdout with
    | some v => Except.ok v
    | none => Except.error "Error parsing command output as JSON"

/-- Exception-propagating sequencing, the glue between consecutive
statements of a Python `try` block. -/
def bindE {α β : Type} (x : Except String α) (f : α → Except String β) :
    Except String β :=
  match x with
  | Except.error e => Except.error e
  | Except.ok a => f a

theorem bindE_ok {α β : Type} (a : α) (f : α → Except String β) :
    bindE (Except.ok a) f = f a := rfl

theorem bindE_error {α β : Type} (e : String) (f : α → Except String β) :
    bindE (Except.error e) f = (Except.error e : Except String β) := rfl

/-- The per-recipe block appended by the `for recipe in result` loop of
`list_recipes`, with the loop's left-to-right exception behaviour. -/
def format_recipe_blocks : List Json → Except String String
  | [] => Except.ok ""
  | recipe :: rest =>
    bindE (pyGet recipe "name" (Json.str "Unknown")) fun n =>
    bindE (pyGet recipe "uuid" (Json.str "Unknown")) fun u =>
    bindE (pyGet recipe "os_version" (Json.str "Unknown")) fun osv =>
    bindE (format_recipe_blocks rest) fun tail =>
    Except.ok ("- Name: " ++ pyStr n ++ "\n  UUID: " ++ pyStr u ++
      "\n  OS Version: " ++ pyStr osv ++ "\n\n" ++ tail)

/-- The `try` block of `list_recipes`. -/
def list_recipes_body (lib : JsonLib) (ex : List String → ProcResult) :
    Except String String :=
  bindE (run_gmsaas_command lib ex ["recipes", "list"]) fun result =>
  if result.truthy = false then Except.ok "No recipes found."
  else
    match result with
    | Json.arr recipes =>
        bindE (format_recipe_blocks recipes) fun blocks =>
        Except.ok ("Available recipes:\n" ++ blocks)
    | _ => Except.ok ("Recipes information: " ++ pyStr result)

/-- Embedding of the `list_recipes` operation. -/
def list_recipes (lib : JsonLib) (ex : List String → ProcResult) : String :=
  match list_recipes_body lib ex with
  | Except.ok s => s
  | Except.error e => "Error listing recipes: " ++ e

/-- The `try` block of `get_recipe_details`. -/
def get_recipe_details_body (lib : JsonLib) (ex : List String → ProcResult)
    (recipe_uuid : String) : Except String String :=
  bindE (run_gmsaas_command lib ex ["recipes", "get", recipe_uuid]) fun result =>
  Except.ok (lib.dumps result)

/-- Embedding of the `get_recipe_details` operation. -/
def get_recipe_details (lib : JsonLib) (ex : List String → ProcResult)
    (recipe_uuid : String) : String :=
  match get_recipe_details_body lib ex recipe_uuid with
  | Except.ok s => s
  | Except.error e => "Error getting recipe details: " ++ e

/-- The per-instance block appended by the loop of `list_running_instances`. -/
def format_instance_blocks : List Json → Except String String
  | [] => Except.ok ""
  | inst :: rest =>
    bindE (pyGet inst "name" (Json.str "Unknown")) fun n =>
    bindE (pyGet inst "uuid" (Json.str "Unknown")) fun u =>
    bindE (pyGet inst "state" (Json.str "Unknown")) fun st =>
    bindE (format_instance_blocks rest) fun tail =>
    Except.ok ("- Name: " ++ pyStr n ++ "\n  UUID: " ++ pyStr u ++
      "\n  State: " ++ pyStr st ++ "\n\n" ++ tail)

/-- The `try` block of `list_running_instances`. -/
def list_running_instances_body (lib : JsonLib) (ex : List String → ProcResult) :
    Except String String :=
  bindE (run_gmsaas_command lib ex ["instances", "list"]) fun result =>
  if result.truthy = false then Except.ok "No running instances found."
  else
    match result with
    | Json.arr instances =>
        bindE (format_instance_blocks instances) fun blocks =>
        Except.ok ("Running instances:\n" ++ blocks)
    | _ => Except.ok ("Instances information: " ++ pyStr result)

/-- Embedding of the `list_running_instances` operation. -/
def list_running_instances (lib : JsonLib) (ex : List String → ProcResult) : String :=
  match list_running_instances_body lib ex with
  | Except.ok s => s
  | Except.error e => "Error listing instances: " ++ e

/-- The `try` block of `start_instance`: run the start command, unwrap the
nested `"instance"` payload when the key is present, render uuid / state /
adb_serial with `"Unknown"` defaults, and append the device-details block
when a `"recipe"` key is present. -/
def start_instance_body (lib : JsonLib) (ex : List String → ProcResult)
    (recipe_uuid instance_name : String) : Except String String :=
  bindE (run_gmsaas_command lib ex ["instances", "start", recipe_uuid, instance_name])
    fun json_result =>
  bindE (pyContains json_result "instance") fun hasInstance =>
  bindE (if hasInstance then pySubscript json_result "instance"
         else Except.ok json_result) fun result =>
  bindE (pyGet result "uuid" (Json.str "Unknown")) fun u =>
  bindE (pyGet result "state" (Json.str "Unknown")) fun st =>
  bindE (pyGet result "adb_serial" (Json.str "Unknown")) fun ad =>
  let base := "Instance \x27" ++ instance_name ++ "\x27 started successfully!\nUUID: " ++
    pyStr u ++ "\nState: " ++ pyStr st ++ "\nADB Serial: " ++ pyStr ad ++ "\n"
  bindE (pyContains result "recipe") fun hasRecipe =>
  if hasRecipe then
    bindE (pySubscript result "recipe") fun recipe =>
    bindE (pyGet recipe "name" (Json.str "Unknown")) fun rn =>
    bindE (pyGet recipe "android_version" (Json.str "Unknown")) fun rv =>
    bindE (pyGet recipe "screen" (Json.str "Unknown")) fun rs =>
    Except.ok (base ++ "\nDevice Details:\n- Name: " ++ pyStr rn ++
      "\n- Android Version: " ++ pyStr rv ++ "\n- Screen: " ++ pyStr rs ++ "\n")
  else Except.ok base

/-- Embedding of the `start_instance` operation. -/
def start_instance (lib : JsonLib) (ex : List String → ProcResult)
    (recipe_uuid instance_name : String) : String :=
  match start_instance_body lib ex recipe_uuid instance_name with
  | Except.ok s => s
  | Except.error e => "Error starting instance: " ++ e

/-- The `try` block of `stop_instance`. -/
def stop_instance_body (lib : JsonLib) (ex : List String → ProcResult)
    (instance_uuid : String) : Except String String :=
  bindE (run_gmsaas_command lib ex ["instances", "stop", instance_uuid]) fun _ =>
  Except.ok ("Instance " ++ instance_uuid ++ " stopped successfully.")

/-- Embedding of the `stop_instance` operation. -/
def stop_instance (lib : JsonLib) (ex : List String → ProcResult)
    (instance_uuid : String) : String :=
  match stop_instance_body lib ex instance_uuid with
  | Except.ok s => s
  | Except.error e => "Error stopping instance: " ++ e

/-- The `try` block of `disconnect_adb`. -/
def disconnect_adb_body (lib : JsonLib) (ex : List String → ProcResult)
    (instance_uuid : String) : Except String String :=
  bindE (run_gmsaas_command lib ex ["instances", "adbdisconnect", instance_uuid]) fun _ =>
  Except.ok ("ADB disconnected from " ++ instance_uuid ++ ".")

/-- Embedding of the `disconnect_adb` operation. -/
def disconnect_adb (lib : JsonLib) (ex : List String → ProcResult)
    (instance_uuid : String) : String :=
  match disconnect_adb_body lib ex instance_uuid with
  | Except.ok s => s
  | Except.error e => "Error disconnecting ADB: " ++ e

/-- Externally visible effects of `connect_adb`, in the order they occur:
subprocess invocations and the fixed settle delay of `time.sleep(0.5)`. -/
inductive Effect where
  | runCommand (args : List String) : Effect
  | settleDelay : Effect

/-- The argument list built by `connect_adb` before invoking the tool. -/
def adbconnectCmd (instance_uuid : String) (adb_port : Option Int) : List String :=
  ["instances", "adbconnect", instance_uuid] ++
    (match adb_port with
     | some p => ["--adb-serial-port", toString p]
     | none => [])

/-- Embedding of the `connect_adb` operation, returning the ordered effect
trace together with the text result.  Mirrors the source exactly: run
adbconnect; sleep 0.5 s; read `result.get('instance', {}).get('adb_serial',
'Unknown')`; when that value equals `"Unknown"`, run `instances get` and
re-read `adb_serial` at the top level of that response inside an inner
`try` whose failure leaves the value at `"Unknown"`.  Any other failure is
caught by the outer handler and prefixed with `Error connecting ADB: `. -/
def connect_adb (lib : JsonLib) (ex : List String → ProcResult)
    (instance_uuid : String) (adb_port : Option Int) : List Effect × String :=
  let command := adbconnectCmd instance_uuid adb_port
  match run_gmsaas_command lib ex command with
  | Except.error e =>
      ([Effect.runCommand (gmsaasFull command)], "Error connecting ADB: " ++ e)
  | Except.ok result =>
    let trace := [Effect.runCommand (gmsaasFull command), Effect.settleDelay]
    match pyGet result "instance" (Json.obj []) with
    | Except.error e => (trace, "Error connecting ADB: " ++ e)
    | Except.ok inst =>
      match pyGet inst "adb_serial" (Json.str "Unknown") with
      | Except.error e => (trace, "Error connecting ADB: " ++ e)
      | Except.ok adb0 =>
        if isUnknownStr adb0 then
          let getCmd : List String := ["instances", "get", instance_uuid]
          let trace2 := trace ++ [Effect.runCommand (gmsaasFull getCmd)]
          match run_gmsaas_command lib ex getCmd with
          | Except.error e => (trace2, "Error connecting ADB: " ++ e)
          | Except.ok details =>
            let adb1 :=
              match details with
              | Json.obj fs => (jsonLookup fs "adb_serial").getD (Json.str "Unknown")
              | _ => adb0
            (trace2, "ADB connected to " ++ instance_uuid ++ ". Use ADB serial: " ++
              pyStr adb1)
        else
          (trace, "ADB connected to " ++ instance_uuid ++ ". Use ADB serial: " ++
            pyStr adb0)

/-- The per-image line appended by the loop of `get_available_os_versions`,
iterating whatever Python iteration yields. -/
def format_os_version_lines : List Json → Except String String
  | [] => Except.ok ""
  | image :: rest =>
    bindE (pyGet image "os_version" (Json.str "Unknown")) fun v =>
    bindE (format_os_version_lines rest) fun tail =>
    Except.ok ("- " ++ pyStr v ++ "\n" ++ tail)

/-- The `try` block of `get_available_os_versions` (note: the source has no
`isinstance` guard here, it iterates the payload directly). -/
def get_available_os_versions_body (lib : JsonLib)
    (ex : List String → ProcResult) : Except String String :=
  bindE (run_gmsaas_command lib ex ["osimages", "list"]) fun result =>
  if result.truthy = false then Except.ok "No Android OS versions found."
  else
    bindE (pyIter result) fun images =>
    bindE (format_os_version_lines images) fun lines =>
    Except.ok ("Available Android OS versions:\n" ++ lines)

/-- Embedding of the `get_available_os_versions` resource. -/
def get_available_os_versions (lib : JsonLib) (ex : List String → ProcResult) :
    String :=
  match get_available_os_versions_body lib ex with
  | Except.ok s => s
  | Except.error e => "Error listing OS versions: " ++ e

/-- The filter condition of `search_recipes`, with Python's short-circuit
`or`: the lowered query in the lowered `name` field (default `''`), or else
in the lowered `android_version` field (default `''`). -/
def recipe_matches (recipe_name : String) (recipe : Json) : Except String Bool :=
  bindE (pyGet recipe "name" (Json.str "")) fun n =>
  bindE (pyLower n) fun nl =>
  if strIn (strLower recipe_name) nl then Except.ok true
  else
    bindE (pyGet recipe "android_version" (Json.str "")) fun av =>
    bindE (pyLower av) fun avl =>
    Except.ok (strIn (strLower recipe_name) avl)

/-- The selection loop of `search_recipes`: every matching recipe is
appended once, in catalog order. -/
def search_matching (recipe_name : String) : List Json → Except String (List Json)
  | [] => Except.ok []
  | recipe :: rest =>
    bindE (recipe_matches recipe_name recipe) fun b =>
    bindE (search_matching recipe_name rest) fun tail =>
    Except.ok (if b then recipe :: tail else tail)

/-- The numbered per-recipe block of the `search_recipes` success listing,
with `enumerate(matching_recipes, 1)` indices. -/
def search_blocks (idx : Nat) : List Json → Except String String
  | [] => Except.ok ""
  | recipe :: rest =>
    bindE (pyGet recipe "name" (Json.str "Unknown")) fun n =>
    bindE (pyGet recipe "uuid" (Json.str "Unknown")) fun u =>
    bindE (pyGet recipe "android_version" (Json.str "Unknown")) fun av =>
    bindE (search_blocks (idx + 1) rest) fun tail =>
    Except.ok (toString idx ++ ". Name: " ++ pyStr n ++ "\n   UUID: " ++ pyStr u ++
      "\n   OS Version: " ++ pyStr av ++ "\n\n" ++ tail)

/-- The `try` block of `search_recipes`.  When nothing matches, the source
returns the no-match message with a fresh full `list_recipes()` call
appended. -/
def search_recipes_body (lib : JsonLib) (ex : List String → ProcResult)
    (recipe_name : String) : Except String String :=
  bindE (run_gmsaas_command lib ex ["recipes", "list"]) fun result =>
  if result.truthy = false then Except.ok "No recipes found."
  else
    bindE (match result with
           | Json.arr recipes => search_matching recipe_name recipes
           | _ => Except.ok []) fun matching =>
    if matching.isEmpty then
      Except.ok ("No recipes found matching \x27" ++ recipe_name ++
        "\x27. Here are all available recipes:\n\n" ++ list_recipes lib ex)
    else
      bindE (search_blocks 1 matching) fun blocks =>
      Except.ok ("Found " ++ toString matching.length ++ " recipes matching \x27" ++
        recipe_name ++ "\x27:\n\n" ++ blocks ++
        "Please choose a recipe by providing its UUID for starting your instance.")

/-- Embedding of the `search_recipes` operation. -/
def search_recipes (lib : JsonLib) (ex : List String → ProcResult)
    (recipe_name : String) : String :=
  match search_recipes_body lib ex recipe_name with
  | Except.ok s => s
  | Except.error e => "Error searching recipes: " ++ e

/-! ## Specification-side definitions and shared helpers -/

/-- The string content of a field of a catalog entry, with the empty-string
default the search code uses. -/
def entryStrField (fs : List (String × Json)) (key : String) : String :=
  match jsonLookup fs key with
  | some (Json.str s) => s
  | _ => ""

/-- The name field of a catalog entry (empty when absent). -/
def entryName : Json → String
  | Json.obj fs => entryStrField fs "name"
  | _ => ""

/-- The platform-version field of a catalog entry, which the source stores
under the key `android_version` (empty when absent). -/
def entryPlatform : Json → String
  | Json.obj fs => entryStrField fs "android_version"
  | _ => ""

/-- Stated from the claim's words: the query is a case-insensitive
substring of the name field or of the platform-version field. -/
def spec_search_matches (query nameField platformField : String) : Bool :=
  strIn (strLower query) (strLower nameField) ||
    strIn (strLower query) (strLower platformField)

/-- The named field, when present, holds a string. -/
def strFieldOk (fs : List (String × Json)) (key : String) : Bool :=
  match jsonLookup fs key with
  | none => true
  | some (Json.str _) => true
  | some _ => false

/-- Well-formed catalog entry: a JSON object whose name and
platform-version fields, when present, are strings. -/
def entryWF : Json → Bool
  | Json.obj fs => strFieldOk fs "name" && strFieldOk fs "android_version"
  | _ => false

/-- The value is a JSON object. -/
def Json.isObj : Json → Bool
  | Json.obj _ => true
  | _ => false

/-- The field list of a JSON object (empty for other values). -/
def objFields : Json → List (String × Json)
  | Json.obj fs => fs
  | _ => []

/-- Concatenation of a list of strings in order. -/
def strConcat : List String → String
  | [] => ""
  | s :: rest => s ++ strConcat rest

/-- The rendered `list_recipes` block of one object entry. -/
def recipe_block_text (fs : List (String × Json)) : String :=
  "- Name: " ++ pyStr ((jsonLookup fs "name").getD (Json.str "Unknown")) ++
  "\n  UUID: " ++ pyStr ((jsonLookup fs "uuid").getD (Json.str "Unknown")) ++
  "\n  OS Version: " ++ pyStr ((jsonLookup fs "os_version").getD (Json.str "Unknown")) ++
  "\n\n"

/-- The nested bridge identifier of a connect response is absent or the
`"Unknown"` placeholder: `response.get('instance', {}).get('adb_serial',
'Unknown')` evaluates (without raising) to `"Unknown"`. -/
def nestedSerialUnknownOrAbsent (connFs : List (String × Json)) : Bool :=
  match jsonLookup connFs "instance" with
  | none => true
  | some (Json.obj ifs) =>
      isUnknownStr ((jsonLookup ifs "adb_serial").getD (Json.str "Unknown"))
  | some _ => false

/-- The identifier the fallback path reads from the top level of the
fetch-instance response: the `adb_serial` field with default `"Unknown"`
for objects, and `"Unknown"` for non-object payloads (whose `.get` raises
inside the inner `try`, leaving the previous `"Unknown"` value in place). -/
def fetchedSerial : Json → Json
  | Json.obj fs => (jsonLookup fs "adb_serial").getD (Json.str "Unknown")
  | _ => Json.str "Unknown"

/-- The fetched payload fails to yield an identifier other than the
placeholder: its top-level read renders as `"Unknown"`. -/
def fetchSerialDegenerate (details : Json) : Bool :=
  pyStr (fetchedSerial details) == "Unknown"

theorem isUnknownStr_eq (v : Json) (h : isUnknownStr v = true) :
    v = Json.str "Unknown" := by
  cases v <;> simp [isUnknownStr] at h ⊢
  exact h

theorem string_append_left_cancel {s a b : String} (h : s ++ a = s ++ b) :
    a = b := by
  apply String.ext
  have hd := congrArg String.data h
  rw [String.data_append, String.data_append] at hd
  exact List.append_cancel_left hd

theorem append_ne_of_head_ne {a b : String} {x y : Char} {ta tb : List Char}
    (ha : a.data = x :: ta) (hb : b.data = y :: tb) (hxy : x ≠ y) :
    ∀ m n : String, a ++ m ≠ b ++ n := by
  intro m n h
  have hd := congrArg String.data h
  rw [String.data_append, String.data_append, ha, hb] at hd
  exact hxy (List.cons.injEq .. ▸ hd).1

theorem pyGet_strField (fs : List (String × Json)) (key : String)
    (h : strFieldOk fs key = true) :
    pyGet (Json.obj fs) key (Json.str "") =
      Except.ok (Json.str (entryStrField fs key)) := by
  unfold strFieldOk at h
  unfold pyGet entryStrField
  rcases hl : jsonLookup fs key with _ | v
  · simp [hl]
  · rw [hl] at h
    cases v <;> simp_all

theorem recipe_matches_eq_spec (q : String) (e : Json) (h : entryWF e = true) :
    recipe_matches q e =
      Except.ok (spec_search_matches q (entryName e) (entryPlatform e)) := by
  cases e with
  | obj fs =>
      unfold entryWF at h
      rw [Bool.and_eq_true] at h
      obtain ⟨h1, h2⟩ := h
      unfold recipe_matches
      rw [pyGet_strField fs "name" h1, bindE_ok]
      show bindE (pyLower (Json.str (entryStrField fs "name"))) _ = _
      rw [show pyLower (Json.str (entryStrField fs "name")) =
            Except.ok (strLower (entryStrField fs "name")) from rfl, bindE_ok]
      rcases hc : strIn (strLower q) (strLower (entryStrField fs "name")) with _ | _
      · simp only [Bool.false_eq_true, if_false]
        rw [pyGet_strField fs "android_version" h2, bindE_ok]
        show bindE (pyLower (Json.str (entryStrField fs "android_version"))) _ = _
        rw [show pyLower (Json.str (entryStrField fs "android_version")) =
              Except.ok (strLower (entryStrField fs "android_version")) from rfl, bindE_ok]
        simp [spec_search_matches, entryName, entryPlatform, hc]
      · simp [spec_search_matches, entryName, entryPlatform, hc]
  | null => simp [entryWF] at h
  | bool b => simp [entryWF] at h
  | num n => simp [entryWF] at h
  | str s => simp [entryWF] at h
  | arr xs => simp [entryWF] at h

theorem search_matching_eq_filter (q : String) (entries : List Json)
    (h : ∀ e ∈ entries, entryWF e = true) :
    search_matching q entries =
      Except.ok (entries.filter fun e =>
        spec_search_matches q (entryName e) (entryPlatform e)) := by
  induction entries with
  | nil => rfl
  | cons e rest ih =>
      have he : entryWF e = true := h e (by simp)
      have hr : ∀ x ∈ rest, entryWF x = true := fun x hx => h x (by simp [hx])
      unfold search_matching
      rw [recipe_matches_eq_spec q e he, bindE_ok, ih hr, bindE_ok, List.filter_cons]

theorem format_recipe_blocks_objs (entries : List Json)
    (h : ∀ e ∈ entries, e.isObj = true) :
    format_recipe_blocks entries =
      Except.ok (strConcat (entries.map fun e => recipe_block_text (objFields e))) := by
  induction entries with
  | nil => rfl
  | cons e rest ih =>
      have he : e.isObj = true := h e (by simp)
      have hr : ∀ x ∈ rest, x.isObj = true := fun x hx => h x (by simp [hx])
      cases e with
      | obj fs =>
          unfold format_recipe_blocks
          rw [show pyGet (Json.obj fs) "name" (Json.str "Unknown") =
                Except.ok ((jsonLookup fs "name").getD (Json.str "Unknown")) from rfl,
              bindE_ok,
              show pyGet (Json.obj fs) "uuid" (Json.str "Unknown") =
                Except.ok ((jsonLookup fs "uuid").getD (Json.str "Unknown")) from rfl,
              bindE_ok,
              show pyGet (Json.obj fs) "os_version" (Json.str "Unknown") =
                Except.ok ((jsonLookup fs "os_version").getD (Json.str "Unknown")) from rfl,
              bindE_ok, ih hr, bindE_ok]
          simp [strConcat, recipe_block_text, objFields]
      | null => simp [Json.isObj] at he
      | bool b => simp [Json.isObj] at he
      | num n => simp [Json.isObj] at he
      | str s => simp [Json.isObj] at he
      | arr xs => simp [Json.isObj] at he

theorem connect_adb_fallback (lib : JsonLib) (ex : List String → ProcResult)
    (u : String) (p : Option Int) (connFs : List (String × Json))
    (hconn : run_gmsaas_command lib ex (adbconnectCmd u p) = Except.ok (Json.obj connFs))
    (hser : nestedSerialUnknownOrAbsent connFs = true) :
    connect_adb lib ex u p =
      ([Effect.runCommand (gmsaasFull (adbconnectCmd u p)), Effect.settleDelay,
        Effect.runCommand (gmsaasFull ["instances", "get", u])],
       match run_gmsaas_command lib ex ["instances", "get", u] with
       | Except.error e => "Error connecting ADB: " ++ e
       | Except.ok details =>
           "ADB connected to " ++ u ++ ". Use ADB serial: " ++
             pyStr (fetchedSerial details)) := by
  unfold nestedSerialUnknownOrAbsent at hser
  simp only [connect_adb, hconn, pyGet]
  rcases hl : jsonLookup connFs "instance" with _ | v
  · rw [hl] at hser
    simp only [hl, Option.getD_none, jsonLookup, Option.getD, isUnknownStr,
      beq_self_eq_true, if_true]
    rcases hg : run_gmsaas_command lib ex ["instances", "get", u] with e | details
    · simp [hg]
    · simp only [hg]
      cases details <;> simp [fetchedSerial, jsonLookup, Option.getD]
  · rw [hl] at hser
    cases v with
    | obj ifs =>
        have hu := isUnknownStr_eq _ hser
        simp only [hl, Option.getD_some, hu, isUnknownStr, beq_self_eq_true, if_true]
        rcases hg : run_gmsaas_command lib ex ["instances", "get", u] with e | details
        · simp [hg]
        · simp only [hg]
          cases details <;> simp [fetchedSerial, jsonLookup, Option.getD]
    | null => simp at hser
    | bool b => simp at hser
    | num n => simp at hser
    | str s => simp at hser
    | arr xs => simp at hser

/-! ## Concrete oracles used by the witnesses -/

/-- A json module whose `loads` always fails to parse. -/
def libNone : JsonLib := ⟨fun _ => none, fun _ => ""⟩

/-- A subprocess that always fails with both streams captured non-empty. -/
def exC1a : List String → ProcResult := fun _ => ⟨1, "out", "err"⟩

/-- A subprocess that always fails with an empty error stream. -/
def exC1b : List String → ProcResult := fun _ => ⟨1, "out", ""⟩

/-- A subprocess that always fails with both streams empty. -/
def exC1c : List String → ProcResult := fun _ => ⟨1, "", ""⟩

/-- A subprocess that always succeeds with unparseable stdout. -/
def exZero : List String → ProcResult := fun _ => ⟨0, "not json", ""⟩

/-! ## Claim theorems -/

/-- C1: on non-zero exit status the ExecutionFailure message consists of
the fixed generic context `Error executing gmsaas command: ` followed by
the captured error stream; by the captured output stream when the error
stream is empty; and degenerates to the bare generic command-failure text
when both streams are empty — in exactly that priority order. -/
theorem run_gmsaas_command_error_stream_priority
    (lib : JsonLib) (ex : List String → ProcResult) (command : List String)
    (h : (ex (gmsaasFull command)).returncode ≠ 0) :
    ((ex (gmsaasFull command)).stderr ≠ "" →
      run_gmsaas_command lib ex command =
        Except.error ("Error executing gmsaas command: " ++
          (ex (gmsaasFull command)).stderr)) ∧
    ((ex (gmsaasFull command)).stderr = "" → (ex (gmsaasFull command)).stdout ≠ "" →
      run_gmsaas_command lib ex command =
        Except.error ("Error executing gmsaas command: " ++
          (ex (gmsaasFull command)).stdout)) ∧
    ((ex (gmsaasFull command)).stderr = "" → (ex (gmsaasFull command)).stdout = "" →
      run_gmsaas_command lib ex command =
        Except.error "Error executing gmsaas command: ") := by
  have hb : ((ex (gmsaasFull command)).returncode != 0) = true := by
    simpa using h
  refine ⟨fun hs => ?_, fun hs ho => ?_, fun hs ho => ?_⟩ <;>
    simp only [run_gmsaas_command] <;> rw [if_pos hb]
  · rw [if_pos (by simpa using hs)]
  · rw [if_neg (by simp [hs])]
  · rw [if_neg (by simp [hs]), ho, String.append_empty]

/-- C1 witness: the three priority cases at concrete subprocess outcomes. -/
theorem run_gmsaas_command_error_stream_priority_witness :
    run_gmsaas_command libNone exC1a ["recipes", "list"] =
      Except.error "Error executing gmsaas command: err" ∧
    run_gmsaas_command libNone exC1b ["recipes", "list"] =
      Except.error "Error executing gmsaas command: out" ∧
    run_gmsaas_command libNone exC1c ["recipes", "list"] =
      Except.error "Error executing gmsaas command: " := by
  refine ⟨?_, ?_, ?_⟩
  · have h := (run_gmsaas_command_error_stream_priority libNone exC1a
      ["recipes", "list"] (by decide)).1 (by decide)
    exact h.trans (by rfl)
  · have h := (run_gmsaas_command_error_stream_priority libNone exC1b
      ["recipes", "list"] (by decide)).2.1 (by rfl) (by decide)
    exact h.trans (by rfl)
  · exact (run_gmsaas_command_error_stream_priority libNone exC1c
      ["recipes", "list"] (by decide)).2.2 (by rfl) (by rfl)

/-- C6: when every subprocess call exits zero with stdout that `json.loads`
cannot parse, the executor yields the parse-failure error and every
operation returns its context-prefixed failure text carrying that message —
raw unparsed stdout is never returned as structured success data. -/
theorem parse_failure_never_success (lib : JsonLib) (ex : List String → ProcResult)
    (h0 : ∀ args, (ex args).returncode = 0)
    (hp : ∀ s, lib.loads s = none) :
    (∀ command, run_gmsaas_command lib ex command =
        Except.error "Error parsing command output as JSON") ∧
    list_recipes lib ex = "Error listing recipes: Error parsing command output as JSON" ∧
    (∀ u, get_recipe_details lib ex u =
        "Error getting recipe details: Error parsing command output as JSON") ∧
    list_running_instances lib ex =
        "Error listing instances: Error parsing command output as JSON" ∧
    (∀ r n, start_instance lib ex r n =
        "Error starting instance: Error parsing command output as JSON") ∧
    (∀ u, stop_instance lib ex u =
        "Error stopping instance: Error parsing command output as JSON") ∧
    (∀ u p, (connect_adb lib ex u p).2 =
        "Error connecting ADB: Error parsing command output as JSON") ∧
    (∀ u, disconnect_adb lib ex u =
        "Error disconnecting ADB: Error parsing command output as JSON") ∧
    get_available_os_versions lib ex =
        "Error listing OS versions: Error parsing command output as JSON" ∧
    (∀ q, search_recipes lib ex q =
        "Error searching recipes: Error parsing command output as JSON") := by
  have hrun : ∀ command, run_gmsaas_command lib ex command =
      Except.error "Error parsing command output as JSON" := by
    intro command
    simp [run_gmsaas_command, h0, hp]
  refine ⟨hrun, ?_, fun u => ?_, ?_, fun r n => ?_, fun u => ?_, fun u p => ?_,
    fun u => ?_, ?_, fun q => ?_⟩
  · simp [list_recipes, list_recipes_body, hrun, bindE_error]
  · simp [get_recipe_details, get_recipe_details_body, hrun, bindE_error]
  · simp [list_running_instances, list_running_instances_body, hrun, bindE_error]
  · simp [start_instance, start_instance_body, hrun, bindE_error]
  · simp [stop_instance, stop_instance_body, hrun, bindE_error]
  · simp [connect_adb, hrun]
  · simp [disconnect_adb, disconnect_adb_body, hrun, bindE_error]
  · simp [get_available_os_versions, get_available_os_versions_body, hrun, bindE_error]
  · simp [search_recipes, search_recipes_body, hrun, bindE_error]

/-- C6 witness: with a concrete zero-exit subprocess whose stdout does not
parse, `list_recipes` returns the parse-failure text. -/
theorem parse_failure_never_success_witness :
    list_recipes libNone exZero =
      "Error listing recipes: Error parsing command output as JSON" :=
  (parse_failure_never_success libNone exZero (fun _ => rfl) (fun _ => rfl)).2.1

/-- C5: every operation converts every failure raised inside its own body —
executor failures, parse failures and payload-shaping exceptions alike —
into a single descriptive text result carrying the operation's fixed
context prefix; being total functions into `String`, the operations never
let a failure escape to the caller.  For `connect_adb` the four internal
failure sources (the connect call, the fallback fetch call, and the two
nested reads shaping the connect payload — `.get` on a non-dict response,
and `.get` on a non-dict `instance` value) are listed separately. -/
theorem operations_catch_all_failures (lib : JsonLib) (ex : List String → ProcResult) :
    (∀ e, list_recipes_body lib ex = Except.error e →
        list_recipes lib ex = "Error listing recipes: " ++ e) ∧
    (∀ u e, get_recipe_details_body lib ex u = Except.error e →
        get_recipe_details lib ex u = "Error getting recipe details: " ++ e) ∧
    (∀ e, list_running_instances_body lib ex = Except.error e →
        list_running_instances lib ex = "Error listing instances: " ++ e) ∧
    (∀ r n e, start_instance_body lib ex r n = Except.error e →
        start_instance lib ex r n = "Error starting instance: " ++ e) ∧
    (∀ u e, stop_instance_body lib ex u = Except.error e →
        stop_instance lib ex u = "Error stopping instance: " ++ e) ∧
    (∀ u p e, run_gmsaas_command lib ex (adbconnectCmd u p) = Except.error e →
        (connect_adb lib ex u p).2 = "Error connecting ADB: " ++ e) ∧
    (∀ u p connFs e,
        run_gmsaas_command lib ex (adbconnectCmd u p) = Except.ok (Json.obj connFs) →
        nestedSerialUnknownOrAbsent connFs = true →
        run_gmsaas_command lib ex ["instances", "get", u] = Except.error e →
        (connect_adb lib ex u p).2 = "Error connecting ADB: " ++ e) ∧
    (∀ u p v e, run_gmsaas_command lib ex (adbconnectCmd u p) = Except.ok v →
        pyGet v "instance" (Json.obj []) = Except.error e →
        (connect_adb lib ex u p).2 = "Error connecting ADB: " ++ e) ∧
    (∀ u p v inst e, run_gmsaas_command lib ex (adbconnectCmd u p) = Except.ok v →
        pyGet v "instance" (Json.obj []) = Except.ok inst →
        pyGet inst "adb_serial" (Json.str "Unknown") = Except.error e →
        (connect_adb lib ex u p).2 = "Error connecting ADB: " ++ e) ∧
    (∀ u e, disconnect_adb_body lib ex u = Except.error e →
        disconnect_adb lib ex u = "Error disconnecting ADB: " ++ e) ∧
    (∀ e, get_available_os_versions_body lib ex = Except.error e →
        get_available_os_versions lib ex = "Error listing OS versions: " ++ e) ∧
    (∀ q e, search_recipes_body lib ex q = Except.error e →
        search_recipes lib ex q = "Error searching recipes: " ++ e) := by
  refine ⟨fun e h => ?_, fun u e h => ?_, fun e h => ?_, fun r n e h => ?_,
    fun u e h => ?_, fun u p e h => ?_, fun u p connFs e hok hser h => ?_,
    fun u p v e hok h => ?_, fun u p v inst e hok hg1 hg2 => ?_, fun u e h => ?_,
    fun e h => ?_, fun q e h => ?_⟩
  · simp [list_recipes, h]
  · simp [get_recipe_details, h]
  · simp [list_running_instances, h]
  · simp [start_instance, h]
  · simp [stop_instance, h]
  · simp [connect_adb, h]
  · rw [connect_adb_fallback lib ex u p connFs hok hser]
    simp [h]
  · simp only [connect_adb, hok, h]
  · simp only [connect_adb, hok, hg1, hg2]
  · simp [disconnect_adb, h]
  · simp [get_available_os_versions, h]
  · simp [search_recipes, h]

/-- A subprocess oracle that always succeeds with stdout tagged `connect`. -/
def exConnOk : List String → ProcResult := fun _ => ⟨0, "connect", ""⟩

/-- A json module whose connect response holds a non-object under the
`instance` key, making the nested `.get` raise. -/
def libConnInt : JsonLib :=
  ⟨fun s =>
    if s == "connect" then some (Json.obj [("instance", Json.num 42)]) else none,
   fun _ => ""⟩

/-- C5 witness: a concrete executor failure surfaces through `list_recipes`
with the operation's context prefix, and a concrete payload-shaping
exception — a connect response whose `instance` value is the number 42 —
surfaces through `connect_adb` with its context prefix. -/
theorem operations_catch_all_failures_witness :
    list_recipes libNone exC1a =
      "Error listing recipes: Error executing gmsaas command: err" ∧
    (connect_adb libConnInt exConnOk "u1" none).2 =
      "Error connecting ADB: \x27int\x27 object has no attribute \x27get\x27" :=
  ⟨(operations_catch_all_failures libNone exC1a).1
      "Error executing gmsaas command: err" (by rfl),
   (((operations_catch_all_failures libConnInt exConnOk).2.2.2.2.2.2.2.2.1 "u1" none
      (Json.obj [("instance", Json.num 42)]) (Json.num 42)
      "\x27int\x27 object has no attribute \x27get\x27"
      (by rfl) (by rfl) (by rfl)).trans (by rfl))⟩

/-- A json module that always parses to the empty list. -/
def libEmptyArr : JsonLib := ⟨fun _ => some (Json.arr []), fun _ => ""⟩

/-- A json module that always parses to a non-empty, non-list payload. -/
def libObjPayload : JsonLib :=
  ⟨fun _ => some (Json.obj [("a", Json.str "b")]), fun _ => ""⟩

/-- A subprocess that always succeeds. -/
def exOk : List String → ProcResult := fun _ => ⟨0, "payload", ""⟩

/-- C8: when the executor succeeds with an empty list payload, each listing
operation returns its fixed non-empty "none found" message, never an empty
string and never a failure text. -/
theorem empty_list_payload_none_found (lib : JsonLib) (ex : List String → ProcResult)
    (hr : run_gmsaas_command lib ex ["recipes", "list"] = Except.ok (Json.arr []))
    (hi : run_gmsaas_command lib ex ["instances", "list"] = Except.ok (Json.arr []))
    (ho : run_gmsaas_command lib ex ["osimages", "list"] = Except.ok (Json.arr [])) :
    (list_recipes lib ex = "No recipes found." ∧ list_recipes lib ex ≠ "") ∧
    (list_running_instances lib ex = "No running instances found." ∧
      list_running_instances lib ex ≠ "") ∧
    (get_available_os_versions lib ex = "No Android OS versions found." ∧
      get_available_os_versions lib ex ≠ "") := by
  have h1 : list_recipes lib ex = "No recipes found." := by
    simp [list_recipes, list_recipes_body, hr, bindE_ok, Json.truthy]
  have h2 : list_running_instances lib ex = "No running instances found." := by
    simp [list_running_instances, list_running_instances_body, hi, bindE_ok, Json.truthy]
  have h3 : get_available_os_versions lib ex = "No Android OS versions found." := by
    simp [get_available_os_versions, get_available_os_versions_body, ho, bindE_ok,
      Json.truthy]
  exact ⟨⟨h1, by rw [h1]; decide⟩, ⟨h2, by rw [h2]; decide⟩, ⟨h3, by rw [h3]; decide⟩⟩

/-- C8 witness: the three "none found" messages at a concrete oracle whose
every call succeeds with the empty list. -/
theorem empty_list_payload_none_found_witness :
    list_recipes libEmptyArr exOk = "No recipes found." ∧
    list_running_instances libEmptyArr exOk = "No running instances found." ∧
    get_available_os_versions libEmptyArr exOk = "No Android OS versions found." := by
  have h := empty_list_payload_none_found libEmptyArr exOk (by rfl) (by rfl) (by rfl)
  exact ⟨h.1.1, h.2.1.1, h.2.2.1⟩

/-- C10: when the executor succeeds with a truthy payload that is not a
list, `list_recipes` / `list_running_instances` return the raw payload
interpolated into their informational line, and this success text never has
the operation's failure prefix. -/
theorem non_list_payload_informational (lib : JsonLib) (ex : List String → ProcResult)
    (v : Json) (hv : v.truthy = true) (hnl : v.isArr = false) :
    (run_gmsaas_command lib ex ["recipes", "list"] = Except.ok v →
      list_recipes lib ex = "Recipes information: " ++ pyStr v ∧
      ∀ rest, list_recipes lib ex ≠ "Error listing recipes: " ++ rest) ∧
    (run_gmsaas_command lib ex ["instances", "list"] = Except.ok v →
      list_running_instances lib ex = "Instances information: " ++ pyStr v ∧
      ∀ rest, list_running_instances lib ex ≠ "Error listing instances: " ++ rest) := by
  constructor
  · intro h
    have heq : list_recipes lib ex = "Recipes information: " ++ pyStr v := by
      unfold list_recipes list_recipes_body
      rw [h, bindE_ok, if_neg (by simp [hv])]
      cases v with
      | arr xs => simp [Json.isArr] at hnl
      | null => rfl
      | bool b => rfl
      | num n => rfl
      | str s => rfl
      | obj fs => rfl
    refine ⟨heq, fun rest hcontra => ?_⟩
    rw [heq] at hcontra
    exact append_ne_of_head_ne
      (show ("Recipes information: ").data = 'R' :: ("ecipes information: ").data by decide)
      (show ("Error listing recipes: ").data = 'E' :: ("rror listing recipes: ").data by decide)
      (by decide) (pyStr v) rest hcontra
  · intro h
    have heq : list_running_instances lib ex = "Instances information: " ++ pyStr v := by
      unfold list_running_instances list_running_instances_body
      rw [h, bindE_ok, if_neg (by simp [hv])]
      cases v with
      | arr xs => simp [Json.isArr] at hnl
      | null => rfl
      | bool b => rfl
      | num n => rfl
      | str s => rfl
      | obj fs => rfl
    refine ⟨heq, fun rest hcontra => ?_⟩
    rw [heq] at hcontra
    exact append_ne_of_head_ne
      (show ("Instances information: ").data = 'I' :: ("nstances information: ").data by decide)
      (show ("Error listing instances: ").data = 'E' :: ("rror listing instances: ").data by decide)
      (by decide) (pyStr v) rest hcontra

/-- C10 witness: at a concrete dict payload the informational line carries
the Python rendering of the raw payload. -/
theorem non_list_payload_informational_witness :
    list_recipes libObjPayload exOk =
      "Recipes information: \x7b\x27a\x27: \x27b\x27\x7d" := by
  have h := (non_list_payload_informational libObjPayload exOk
    (Json.obj [("a", Json.str "b")]) (by rfl) (by rfl)).1 (by rfl)
  exact h.1.trans (by rfl)

/-- The catalog of the claim's concrete test: platform-version 9.0 under
the source's `android_version` key for the first entry, name Nine9 for the
second. -/
def exEntries : List Json :=
  [Json.obj [("name", Json.str "Pixel"), ("android_version", Json.str "9.0")],
   Json.obj [("name", Json.str "Nine9"), ("android_version", Json.str "8.0")]]

/-- C2: on a catalog of well-formed entries the selection loop of
`search_recipes` keeps exactly those entries for which the query is a
case-insensitive substring of the name field or of the platform-version
(`android_version`) field — the union of the two field matches, each
matching entry kept once, in catalog order. -/
theorem search_selects_exactly_matching (q : String) (entries : List Json)
    (h : ∀ e ∈ entries, entryWF e = true) :
    search_matching q entries =
      Except.ok (entries.filter fun e =>
        spec_search_matches q (entryName e) (entryPlatform e)) :=
  search_matching_eq_filter q entries h

/-- C2 witness: query `9` against the claim's two-entry catalog selects
both entries (platform match for the first, name match for the second),
each exactly once. -/
theorem search_selects_exactly_matching_witness :
    search_matching "9" exEntries = Except.ok exEntries := by
  have h := search_selects_exactly_matching "9" exEntries (by decide)
  exact h.trans (by rfl)

/-- A json module that always parses to the two-entry example catalog. -/
def libExCatalog : JsonLib := ⟨fun _ => some (Json.arr exEntries), fun _ => ""⟩

/-- C4: on a non-empty well-formed catalog, a query matching zero entries
makes `search_recipes` return the message naming the query followed by the
full unfiltered `list_recipes` listing of every catalog entry — never a
bare no-match message. -/
theorem search_zero_matches_appends_full_listing
    (lib : JsonLib) (ex : List String → ProcResult) (q : String) (entries : List Json)
    (hrun : run_gmsaas_command lib ex ["recipes", "list"] = Except.ok (Json.arr entries))
    (hne : entries ≠ [])
    (hwf : ∀ e ∈ entries, entryWF e = true)
    (hzero : entries.filter
      (fun e => spec_search_matches q (entryName e) (entryPlatform e)) = []) :
    search_recipes lib ex q =
      "No recipes found matching \x27" ++ q ++
        "\x27. Here are all available recipes:\n\n" ++
      ("Available recipes:\n" ++
        strConcat (entries.map fun e => recipe_block_text (objFields e))) := by
  have hobj : ∀ e ∈ entries, e.isObj = true := by
    intro e he
    have := hwf e he
    cases e <;> simp_all [entryWF, Json.isObj]
  have hempty : entries.isEmpty = false := by
    cases entries with
    | nil => exact absurd rfl hne
    | cons a rest => rfl
  have hlr : list_recipes lib ex =
      "Available recipes:\n" ++
        strConcat (entries.map fun e => recipe_block_text (objFields e)) := by
    unfold list_recipes list_recipes_body
    rw [hrun, bindE_ok, if_neg (by simp [Json.truthy, hempty])]
    dsimp only
    rw [format_recipe_blocks_objs entries hobj, bindE_ok]
  unfold search_recipes search_recipes_body
  rw [hrun, bindE_ok, if_neg (by simp [Json.truthy, hempty])]
  dsimp only
  rw [search_matching_eq_filter q entries hwf, hzero, bindE_ok]
  rw [if_pos (by rfl), hlr]

/-- C4 witness: query `zzz` against the concrete two-entry catalog yields
the no-match message followed by the full listing of both entries. -/
theorem search_zero_matches_appends_full_listing_witness :
    search_recipes libExCatalog exOk "zzz" =
      "No recipes found matching \x27zzz\x27. Here are all available recipes:\n\n" ++
      "Available recipes:\n- Name: Pixel\n  UUID: Unknown\n  OS Version: Unknown\n\n" ++
      "- Name: Nine9\n  UUID: Unknown\n  OS Version: Unknown\n\n" := by
  have h := search_zero_matches_appends_full_listing libExCatalog exOk "zzz" exEntries
    (by rfl) (List.cons_ne_nil _ _) (by decide) (by rfl)
  exact h.trans (by rfl)

/-- The header rendered by `start_instance` from the used payload fields:
uuid, state and adb_serial, each defaulting to the literal `Unknown`. -/
def start_base_text (instance_name : String) (gs : List (String × Json)) : String :=
  "Instance \x27" ++ instance_name ++ "\x27 started successfully!\nUUID: " ++
  pyStr ((jsonLookup gs "uuid").getD (Json.str "Unknown")) ++ "\nState: " ++
  pyStr ((jsonLookup gs "state").getD (Json.str "Unknown")) ++ "\nADB Serial: " ++
  pyStr ((jsonLookup gs "adb_serial").getD (Json.str "Unknown")) ++ "\n"

/-- The device-details block `start_instance` appends when the used payload
carries a `recipe` sub-object. -/
def device_details_text (rfs : List (String × Json)) : String :=
  "\nDevice Details:\n- Name: " ++
  pyStr ((jsonLookup rfs "name").getD (Json.str "Unknown")) ++
  "\n- Android Version: " ++
  pyStr ((jsonLookup rfs "android_version").getD (Json.str "Unknown")) ++
  "\n- Screen: " ++
  pyStr ((jsonLookup rfs "screen").getD (Json.str "Unknown")) ++ "\n"

/-- C7: on a successful start response, `start_instance` unwraps the nested
`instance` object when the key is present and otherwise uses the top-level
payload; it renders uuid, state and adb_serial with the literal `Unknown`
for any absent field, and appends the recipe sub-object's descriptive
fields exactly when a `recipe` key is present — absent or placeholder
fields never abort rendering. -/
theorem start_instance_unwraps_and_renders
    (lib : JsonLib) (ex : List String → ProcResult) (r n : String)
    (fs : List (String × Json))
    (hrun : run_gmsaas_command lib ex ["instances", "start", r, n] =
      Except.ok (Json.obj fs)) :
    (∀ ifs, jsonLookup fs "instance" = some (Json.obj ifs) →
      (jsonLookup ifs "recipe" = none →
        start_instance lib ex r n = start_base_text n ifs) ∧
      (∀ rfs, jsonLookup ifs "recipe" = some (Json.obj rfs) →
        start_instance lib ex r n = start_base_text n ifs ++ device_details_text rfs)) ∧
    (jsonLookup fs "instance" = none →
      (jsonLookup fs "recipe" = none →
        start_instance lib ex r n = start_base_text n fs) ∧
      (∀ rfs, jsonLookup fs "recipe" = some (Json.obj rfs) →
        start_instance lib ex r n = start_base_text n fs ++ device_details_text rfs)) := by
  constructor
  · intro ifs hl
    constructor <;> [skip; intro rfs] <;> intro hrec <;>
      unfold start_instance start_instance_body <;>
      rw [hrun, bindE_ok] <;>
      simp only [pyContains, hl, hrec, Option.isSome_some, Option.isSome_none,
        Bool.false_eq_true, if_true, if_false, bindE_ok, pySubscript, pyGet,
        start_base_text, device_details_text] <;>
      simp only [← String.append_assoc]
  · intro hl
    constructor <;> [skip; intro rfs] <;> intro hrec <;>
      unfold start_instance start_instance_body <;>
      rw [hrun, bindE_ok] <;>
      simp only [pyContains, hl, hrec, Option.isSome_some, Option.isSome_none,
        Bool.false_eq_true, if_true, if_false, bindE_ok, pySubscript, pyGet,
        start_base_text, device_details_text] <;>
      simp only [← String.append_assoc]

/-- A subprocess oracle for the start example: the start command succeeds
with stdout tagged `started`. -/
def exStart : List String → ProcResult := fun _ => ⟨0, "started", ""⟩

/-- A json module parsing the start example response
`instance: uuid u1, state running, adb_serial Unknown`. -/
def libStart : JsonLib :=
  ⟨fun _ => some (Json.obj [("instance",
      Json.obj [("uuid", Json.str "u1"), ("state", Json.str "running"),
        ("adb_serial", Json.str "Unknown")])]),
   fun _ => ""⟩

/-- C7 witness: the claim's concrete response renders uuid u1, state
running and the placeholder adb_serial without aborting. -/
theorem start_instance_unwraps_and_renders_witness :
    start_instance libStart exStart "r1" "dev" =
      "Instance \x27dev\x27 started successfully!\nUUID: u1\nState: running\nADB Serial: Unknown\n" := by
  have h := ((start_instance_unwraps_and_renders libStart exStart "r1" "dev"
    [("instance", Json.obj [("uuid", Json.str "u1"), ("state", Json.str "running"),
      ("adb_serial", Json.str "Unknown")])] (by rfl)).1
    [("uuid", Json.str "u1"), ("state", Json.str "running"),
      ("adb_serial", Json.str "Unknown")] (by rfl)).1 (by rfl)
  exact h.trans (by rfl)

/-- C3: when the connect response is a successful object whose nested
bridge identifier is absent or the `Unknown` placeholder, `connect_adb`
waits the fixed settle interval and then issues the fetch-instance-by-id
query (in that order), reads the identifier from the top level of that
second response, and reports it in the final text; when the identifier is
absent from the fetched payload the `Unknown` placeholder is reported
instead of the operation failing. -/
theorem connect_adb_fallback_resolution
    (lib : JsonLib) (ex : List String → ProcResult) (u : String) (p : Option Int)
    (connFs pFs : List (String × Json))
    (hconn : run_gmsaas_command lib ex (adbconnectCmd u p) = Except.ok (Json.obj connFs))
    (hser : nestedSerialUnknownOrAbsent connFs = true)
    (hfetch : run_gmsaas_command lib ex ["instances", "get", u] =
      Except.ok (Json.obj pFs)) :
    connect_adb lib ex u p =
      ([Effect.runCommand (gmsaasFull (adbconnectCmd u p)), Effect.settleDelay,
        Effect.runCommand (gmsaasFull ["instances", "get", u])],
       "ADB connected to " ++ u ++ ". Use ADB serial: " ++
         pyStr ((jsonLookup pFs "adb_serial").getD (Json.str "Unknown"))) := by
  rw [connect_adb_fallback lib ex u p connFs hconn hser, hfetch]
  rfl

/-- A subprocess oracle distinguishing the connect and fetch commands of
the fallback example. -/
def exConn : List String → ProcResult := fun args =>
  match args with
  | ["gmsaas", "--format", "json", "instances", "adbconnect", _] => ⟨0, "connect", ""⟩
  | ["gmsaas", "--format", "json", "instances", "get", _] => ⟨0, "details", ""⟩
  | _ => ⟨1, "", ""⟩

/-- A json module for the fallback example: the connect response nests the
`Unknown` placeholder, the fetch response carries the real serial at top
level. -/
def libConnReal : JsonLib :=
  ⟨fun s =>
    if s == "connect" then
      some (Json.obj [("instance", Json.obj [("adb_serial", Json.str "Unknown")])])
    else if s == "details" then
      some (Json.obj [("adb_serial", Json.str "localhost:6555")])
    else none,
   fun _ => ""⟩

/-- C3 witness: the claim's example — connect returns `Unknown`, the fetch
returns `localhost:6555`, and the final result reports the fetched serial
after the settle delay and the fetch query, in order. -/
theorem connect_adb_fallback_resolution_witness :
    connect_adb libConnReal exConn "u1" none =
      ([Effect.runCommand ["gmsaas", "--format", "json", "instances", "adbconnect", "u1"],
        Effect.settleDelay,
        Effect.runCommand ["gmsaas", "--format", "json", "instances", "get", "u1"]],
       "ADB connected to u1. Use ADB serial: localhost:6555") := by
  have h := connect_adb_fallback_resolution libConnReal exConn "u1" none
    [("instance", Json.obj [("adb_serial", Json.str "Unknown")])]
    [("adb_serial", Json.str "localhost:6555")] (by rfl) (by rfl) (by rfl)
  exact h.trans (by rfl)

/-- A json module for the degenerate fallback: the fetch response carries
the placeholder itself in its `adb_serial` field. -/
def libConnUnknown : JsonLib :=
  ⟨fun s =>
    if s == "connect" then
      some (Json.obj [("instance", Json.obj [("adb_serial", Json.str "Unknown")])])
    else if s == "details" then
      some (Json.obj [("adb_serial", Json.str "Unknown")])
    else none,
   fun _ => ""⟩

/-- C9 counterexample: the follow-up fetch command SUCCEEDS and its payload
CONTAINS the identifier field (holding the placeholder string), yet the
operation reports the placeholder — refuting the claim that the placeholder
is returned only when the fetched payload lacks the identifier field. -/
theorem connect_adb_placeholder_counterexample :
    (connect_adb libConnUnknown exConn "u1" none).2 =
      "ADB connected to u1. Use ADB serial: Unknown" ∧
    run_gmsaas_command libConnUnknown exConn ["instances", "get", "u1"] =
      Except.ok (Json.obj [("adb_serial", Json.str "Unknown")]) ∧
    jsonLookup [("adb_serial", Json.str "Unknown")] "adb_serial" =
      some (Json.str "Unknown") :=
  ⟨rfl, rfl, rfl⟩

/-- C9 (amended): in the fallback path (connect succeeded, nested
identifier absent or the placeholder), if the follow-up fetch-instance
command itself fails, the whole operation returns the error-prefixed
failure text and never the placeholder message; and the placeholder message
is returned only when the fetch command succeeds and its payload fails to
yield a non-placeholder identifier (top-level field absent, the field
holding the placeholder itself, or a non-object payload). -/
theorem connect_adb_fallback_error_vs_placeholder
    (lib : JsonLib) (ex : List String → ProcResult) (u : String) (p : Option Int)
    (connFs : List (String × Json))
    (hconn : run_gmsaas_command lib ex (adbconnectCmd u p) = Except.ok (Json.obj connFs))
    (hser : nestedSerialUnknownOrAbsent connFs = true) :
    (∀ e, run_gmsaas_command lib ex ["instances", "get", u] = Except.error e →
      (connect_adb lib ex u p).2 = "Error connecting ADB: " ++ e ∧
      (connect_adb lib ex u p).2 ≠
        "ADB connected to " ++ u ++ ". Use ADB serial: Unknown") ∧
    ((connect_adb lib ex u p).2 =
        "ADB connected to " ++ u ++ ". Use ADB serial: Unknown" →
      ∃ details,
        run_gmsaas_command lib ex ["instances", "get", u] = Except.ok details ∧
        fetchSerialDegenerate details = true) := by
  have hfall := connect_adb_fallback lib ex u p connFs hconn hser
  have hne : ∀ e, "Error connecting ADB: " ++ e ≠
      "ADB connected to " ++ u ++ ". Use ADB serial: Unknown" := by
    intro e
    have hre : "ADB connected to " ++ u ++ ". Use ADB serial: Unknown" =
        "ADB connected to " ++ (u ++ ". Use ADB serial: Unknown") := by
      rw [String.append_assoc]
    rw [hre]
    exact append_ne_of_head_ne
      (show ("Error connecting ADB: ").data = 'E' :: ("rror connecting ADB: ").data
        by decide)
      (show ("ADB connected to ").data = 'A' :: ("DB connected to ").data by decide)
      (by decide) e (u ++ ". Use ADB serial: Unknown")
  constructor
  · intro e hg
    have h2 : (connect_adb lib ex u p).2 = "Error connecting ADB: " ++ e := by
      rw [hfall, hg]
    exact ⟨h2, by rw [h2]; exact hne e⟩
  · intro hph
    rw [hfall] at hph
    dsimp only at hph
    rcases hg : run_gmsaas_command lib ex ["instances", "get", u] with e | details
    · rw [hg] at hph
      exact absurd hph (hne e)
    · rw [hg] at hph
      refine ⟨details, rfl, ?_⟩
      have hexp : "ADB connected to " ++ u ++ ". Use ADB serial: Unknown" =
          "ADB connected to " ++ u ++ ". Use ADB serial: " ++ "Unknown" := by
        have hlit : (". Use ADB serial: " ++ "Unknown" : String) =
            ". Use ADB serial: Unknown" := rfl
        rw [String.append_assoc ("ADB connected to " ++ u), hlit]
      rw [hexp] at hph
      have hun := string_append_left_cancel hph
      simp [fetchSerialDegenerate, hun]

/-- A subprocess oracle whose fetch-instance command fails. -/
def exConnFail : List String → ProcResult := fun args =>
  match args with
  | ["gmsaas", "--format", "json", "instances", "adbconnect", _] => ⟨0, "connect", ""⟩
  | ["gmsaas", "--format", "json", "instances", "get", _] => ⟨1, "", "boom"⟩
  | _ => ⟨1, "", ""⟩

/-- C9 witness: with the fetch command failing concretely, the operation
returns the error-prefixed text, not the placeholder. -/
theorem connect_adb_fallback_error_vs_placeholder_witness :
    (connect_adb libConnReal exConnFail "u1" none).2 =
      "Error connecting ADB: Error executing gmsaas command: boom" := by
  have h := ((connect_adb_fallback_error_vs_placeholder libConnReal exConnFail "u1" none
    [("instance", Json.obj [("adb_serial", Json.str "Unknown")])] (by rfl) (by rfl)).1
    "Error executing gmsaas command: boom" (by rfl)).1
  exact h.trans (by rfl)
